import Mathlib

/-!
# Verification of the go-observability-dashboard request pipeline

Shallow embedding of the Go application in `src/main.go` (and the variant
`main.go` captured as `src/unnamed/part_002`): a Gin HTTP service with a
middleware pipeline (otelgin span propagation, structured-log binding,
Prometheus metrics recording) in front of small CRUD handlers over a fixed
in-memory item store.

Modelling conventions:
- `float64` prices and parsed query values are modelled as `ℚ` (exact
  decimal arithmetic; the concrete values used by the program are small
  decimals where IEEE-754 and rational arithmetic agree; the non-finite
  values Inf/NaN accepted by strconv.ParseFloat are not rationals and are
  outside the model).
- Prometheus counters and histograms are modelled as the list of recorded
  (label, value) events; the counter value for a label set is the number of
  occurrences in the list, so appending one entry is exactly one increment.
- slog loggers are modelled by their list of pre-bound attributes; a log
  call produces a record whose attributes are the bound attributes followed
  by the call-site attributes, mirroring the JSON handler output.
- wall-clock durations are not modelled; a duration-histogram observation
  records its label pair only.
- a ghost `events` trace marks the effect points of the pipeline (span
  start and end, logger binding, timer start, metric recording, handler
  invocation) for the temporal ordering claims.
-/

namespace GoObs

/-! ## Numeric string parsing (strconv.Atoi / strconv.ParseFloat)

The parsers work on `List Char` with structural recursion so that closed
instances reduce inside the kernel. -/

/-- Split a character list at every occurrence of a separator. -/
def splitOnChar (sep : Char) : List Char → List (List Char)
  | [] => [[]]
  | c :: cs =>
      let r := splitOnChar sep cs
      if c = sep then [] :: r
      else
        match r with
        | [] => [[c]]
        | g :: gs => (c :: g) :: gs

/-- Digits of a decimal numeral accumulated into a `Nat`
(callers check `allDigits` first). -/
def digitsToNat (cs : List Char) : Nat :=
  cs.foldl (fun n c => n * 10 + (c.toNat - 48)) 0

/-- True when every character is a decimal digit. -/
def allDigits (cs : List Char) : Bool :=
  cs.all Char.isDigit

/-- Leading sign of a numeric literal: whether it is negative, and the
rest of the characters. -/
def splitSign : List Char → Bool × List Char
  | '-' :: cs => (true, cs)
  | '+' :: cs => (false, cs)
  | cs => (false, cs)

/-- Negate when the parsed sign was negative. -/
def applySign (neg : Bool) (v : ℚ) : ℚ :=
  if neg then -v else v

/-- Ten to a natural power in `ℚ`. -/
def pow10 : Nat → ℚ
  | 0 => 1
  | n + 1 => 10 * pow10 n

/-- Decimal mantissa as accepted by strconv.ParseFloat:
digits, digits.digits, digits., or .digits . -/
def parseMantissa (cs : List Char) : Option ℚ :=
  match splitOnChar '.' cs with
  | [d] => if d ≠ [] && allDigits d then some (digitsToNat d : ℚ) else none
  | [i, f] =>
      if (i ++ f) ≠ [] && allDigits i && allDigits f then
        some ((digitsToNat (i ++ f) : ℚ) / pow10 f.length)
      else none
  | _ => none

/-- strconv.ParseFloat on finite decimal syntax (optional sign, decimal
mantissa, optional signed decimal exponent), valued in `ℚ`.  Inf/NaN and
hex float syntax are outside the model (their values are not rationals). -/
def parseFloat (s : String) : Option ℚ :=
  let (neg, cs) := splitSign s.toList
  let cs := cs.map (fun c => if c = 'E' then 'e' else c)
  match splitOnChar 'e' cs with
  | [m] => (parseMantissa m).map (applySign neg)
  | [m, e] =>
      match parseMantissa m with
      | none => none
      | some mv =>
          let (eneg, ed) := splitSign e
          if ed ≠ [] && allDigits ed then
            some (applySign neg
              (if eneg then mv / pow10 (digitsToNat ed)
               else mv * pow10 (digitsToNat ed)))
          else none
  | _ => none

/-- strconv.Atoi: optional sign followed by at least one digit
(the int64 range check is not modelled; the program only parses ids). -/
def atoi (s : String) : Option Int :=
  let (neg, ds) := splitSign s.toList
  if ds ≠ [] && allDigits ds then
    some (if neg then -(digitsToNat ds : Int) else (digitsToNat ds : Int))
  else none

/-! ## Data model -/

/-- A stored item (entry of fakeItemsDB / allItems): the generic
map with name and price fields used by the Go source. -/
structure DBItem where
  name : String
  price : ℚ
deriving DecidableEq, Repr

/-- The Item struct bound from a create request body. -/
structure Item where
  name : String
  price : ℚ
  isOffer : Option Bool
deriving DecidableEq, Repr

/-- A JSON object presented to ShouldBindJSON: each field is present or
absent.  `none` at the request level models malformed JSON. -/
structure JsonBody where
  name : Option String
  price : Option ℚ
  isOffer : Option Bool
deriving DecidableEq, Repr

/-- The in-memory store (package-level fakeItemsDB and allItems). -/
structure Store where
  fakeItemsDB : List (Int × DBItem)
  allItems : List DBItem
deriving DecidableEq, Repr

/-- fakeItemsDB from src/main.go lines 82-86. -/
def fakeItemsDB : List (Int × DBItem) :=
  [(1, ⟨"laptop", 1200⟩), (2, ⟨"mouse", 25⟩), (3, ⟨"keyboard", 75⟩)]

/-- allItems from src/main.go lines 88-94. -/
def allItems : List DBItem :=
  [⟨"laptop", 1200⟩, ⟨"mouse", 25⟩, ⟨"keyboard", 75⟩,
   ⟨"monitor", 300⟩, ⟨"webcam", 50⟩]

/-- The store as initialized by the program. -/
def appStore : Store := ⟨fakeItemsDB, allItems⟩

/-! ## Logging -/

/-- Log severity levels used by the program. -/
inductive Level
  | info
  | warn
  | error
deriving DecidableEq, Repr

/-- One emitted log line: level, message and key/value attributes
(values stringified, as in the JSON output). -/
structure LogRecord where
  level : Level
  msg : String
  attrs : List (String × String)
deriving DecidableEq, Repr

/-- An slog logger, modelled by its pre-bound attributes.
newSlogLogger returns a logger with no pre-bound attributes. -/
structure Logger where
  attrs : List (String × String)
deriving DecidableEq, Repr

/-- logger.With(kv...): returns a derived logger with the extra
attributes appended after the existing ones. -/
def Logger.withFields (l : Logger) (kv : List (String × String)) : Logger :=
  ⟨l.attrs ++ kv⟩

/-- Emitting one line: bound attributes first, call-site attributes after,
as rendered by the slog JSON handler. -/
def Logger.log (l : Logger) (lv : Level) (m : String)
    (kv : List (String × String)) : LogRecord :=
  ⟨lv, m, l.attrs ++ kv⟩

/-- The base logger built by newSlogLogger in src/main.go line 147:
a JSON handler over stdout with no pre-bound attributes. -/
def baseLogger : Logger := ⟨[]⟩

/-- The fresh fallback logger built inside getLogger when no logger was
bound (src/main.go line 247): same shape as the base logger. -/
def defaultLogger : Logger := ⟨[]⟩

/-! ## Spans and metrics -/

/-- The identifiers of a valid span context. -/
structure SpanIds where
  traceID : String
  spanID : String
deriving DecidableEq, Repr

/-- Prometheus metric state.  Counters/histograms are event lists (one
entry per increment or observation); the search counter is unlabeled so a
plain count suffices. -/
structure Metrics where
  httpRequestsTotal : List (String × String × String)
  httpRequestDuration : List (String × String)
  itemOperationsTotal : List (String × String)
  searchRequestsTotal : Nat
  searchResultsCount : List Nat
deriving DecidableEq, Repr

/-- All metric series start empty. -/
def emptyMetrics : Metrics := ⟨[], [], [], 0, []⟩

/-- Ghost events marking the observable effect points of the pipeline. -/
inductive Event
  | spanStarted
  | loggerBound
  | timerStarted
  | handlerRun
  | metricsRecorded
  | spanEnded
deriving DecidableEq, Repr

/-- Global mutable program state threaded through a request: the item
store, the metric accumulators, the emitted log lines, the exported spans,
and the ghost event trace. -/
structure AppState where
  store : Store
  metrics : Metrics
  logs : List LogRecord
  exportedSpans : List SpanIds
  events : List Event
deriving DecidableEq, Repr

/-- Process state at startup: fixed store, empty telemetry. -/
def initialState : AppState :=
  ⟨appStore, emptyMetrics, [], [], []⟩

/-- Append one log record. -/
def AppState.emit (s : AppState) (r : LogRecord) : AppState :=
  { s with logs := s.logs ++ [r] }

/-- Append one ghost event. -/
def AppState.emitEvent (s : AppState) (e : Event) : AppState :=
  { s with events := s.events ++ [e] }

/-- itemOperationsTotal.WithLabelValues(op, st).Inc() -/
def AppState.incItemOperations (s : AppState) (op st : String) : AppState :=
  { s with metrics :=
      { s.metrics with itemOperationsTotal :=
          s.metrics.itemOperationsTotal ++ [(op, st)] } }

/-! ## Request context -/

/-- Response bodies produced by the program, one constructor per shape of
object passed to c.JSON (plus the plain-text Gin default 404 body and the
Prometheus exposition page). -/
inductive RespBody
  | empty
  | message (s : String)
  | detail (s : String)
  | itemBody (itemId : Int) (item : DBItem)
  | searchResults (results : List DBItem)
  | created (item : Item)
  | statusBody (status version : String)
  | metricsExposition
  | plain (s : String)
deriving DecidableEq, Repr

/-- The per-request gin.Context slice that the program reads and writes:
request data, the matched route template (FullPath, empty when no route
matched), path parameters, query parameters, the decoded JSON body, the
active span placed by otelgin, the "logger" context key, and the response
writer state. -/
structure Ctx where
  method : String
  path : String
  fullPath : String
  params : List (String × String)
  query : List (String × String)
  rawBody : Option JsonBody
  span : Option SpanIds
  keyLogger : Option Logger
  status : Nat
  body : RespBody
deriving DecidableEq, Repr

/-- c.JSON(status, obj): set the response status and body. -/
def Ctx.json (c : Ctx) (st : Nat) (b : RespBody) : Ctx :=
  { c with status := st, body := b }

/-- getLogger (src/main.go lines 243-250): read the "logger" context key;
fall back to a fresh default logger when nothing was bound.  The Go code
ends with a type assertion to *slog.Logger; the only writer of the key is
structuredLogMiddleware, which always stores a *slog.Logger, so the
assertion is modelled by the Option type. -/
def getLogger (c : Ctx) : Logger :=
  match c.keyLogger with
  | none => defaultLogger
  | some logger => logger

/-- A stage of the Gin handler chain: transforms the request context and
the global state. -/
abbrev Stage := Ctx → AppState → Ctx × AppState

/-! ## Business handlers (src/main.go lines 254-366) -/

/-- readRoot: GET / -/
def readRoot : Stage := fun c s =>
  let logger := getLogger c
  let s := s.emit (logger.log .info "Accessed root endpoint" [])
  (c.json 200 (.message "Welcome to the Go application!"), s)

/-- readItem: GET /items/:item_id -/
def readItem : Stage := fun c s =>
  let logger := getLogger c
  let itemIDStr := (c.params.lookup "item_id").getD ""
  match atoi itemIDStr with
  | none =>
      let s := s.emit (logger.log .warn "Invalid item ID" [("item_id", itemIDStr)])
      let s := s.incItemOperations "read" "bad_request"
      (c.json 400 (.detail "Invalid item ID"), s)
  | some itemID =>
      match s.store.fakeItemsDB.lookup itemID with
      | none =>
          let s := s.emit (logger.log .info "Item not found" [("item_id", toString itemID)])
          let s := s.incItemOperations "read" "not_found"
          (c.json 404 (.detail "Item not found"), s)
      | some item =>
          let s := s.emit
            (logger.log .info "Successfully retrieved item" [("item_id", toString itemID)])
          let s := s.incItemOperations "read" "success"
          (c.json 200 (.itemBody itemID item), s)

/-- strings.ToLower, as the lower-cased character list. -/
def lowerChars (s : String) : List Char :=
  s.toList.map Char.toLower

/-- strings.Contains(hay, needle): needle occurs as a contiguous
substring of hay (true for the empty needle). -/
def strContains (hay needle : List Char) : Bool :=
  decide (List.IsInfix needle hay)

/-- The nameMatch test of searchItems:
name equals "" or strings.Contains(strings.ToLower(itemName), strings.ToLower(name)). -/
def nameMatches (queryName itemName : String) : Bool :=
  queryName = "" || strContains (lowerChars itemName) (lowerChars queryName)

/-- searchItems: GET /search/ .  The warn branch logs the offending
min_price string (the strconv error text is not carried by the model). -/
def searchItems : Stage := fun c s =>
  let logger := getLogger c
  let s := { s with metrics :=
      { s.metrics with searchRequestsTotal := s.metrics.searchRequestsTotal + 1 } }
  let name := (c.query.lookup "name").getD ""
  let minPriceStr := (c.query.lookup "min_price").getD "0"
  let (minPrice, s) :=
    match parseFloat minPriceStr with
    | none =>
        ((0 : ℚ),
         s.emit (logger.log .warn "Invalid min_price query param"
           [("min_price", minPriceStr)]))
    | some v => (v, s)
  let results := s.store.allItems.filter
    (fun item => nameMatches name item.name && minPrice ≤ item.price)
  let s := { s with metrics :=
      { s.metrics with searchResultsCount :=
          s.metrics.searchResultsCount ++ [results.length] } }
  let s := s.emit (logger.log .info "Search performed"
    [("query_name", name), ("min_price", toString minPrice),
     ("results_found", toString results.length)])
  (c.json 200 (.searchResults results), s)

/-- c.ShouldBindJSON(&item): JSON decoding into the Item struct (absent
fields take the zero value) followed by the required-field validation,
which rejects zero values for name and price.  Returns none on any
binding or validation error. -/
def shouldBindJSON (raw : Option JsonBody) : Option Item :=
  match raw with
  | none => none
  | some j =>
      let it : Item := ⟨j.name.getD "", j.price.getD 0, j.isOffer⟩
      if it.name = "" ∨ it.price = 0 then none else some it

/-- createItem: POST /items/ .  The 400 detail carries the validator
error text, abstracted as a fixed marker string in the model. -/
def createItem : Stage := fun c s =>
  let logger := getLogger c
  match shouldBindJSON c.rawBody with
  | none =>
      let s := s.emit (logger.log .warn "Failed to bind JSON for create item" [])
      let s := s.incItemOperations "create" "bad_request"
      (c.json 400 (.detail "binding error"), s)
  | some item =>
      let s := s.emit (logger.log .info "Item created successfully"
        [("item_name", item.name), ("item_price", toString item.price)])
      let s := s.incItemOperations "create" "success"
      (c.json 200 (.created item), s)

/-- getStatus: GET /status -/
def getStatus : Stage := fun c s =>
  let s := s.emit ((getLogger c).log .info "Health check performed" [])
  (c.json 200 (.statusBody "healthy" "1.0"), s)

/-- getError500: GET /error-500 -/
def getError500 : Stage := fun c s =>
  let s := s.emit ((getLogger c).log .error "Simulating 500 Internal Server Error" [])
  (c.json 500 (.detail "Internal Server Error"), s)

/-- getError400: GET /error-400 -/
def getError400 : Stage := fun c s =>
  let s := s.emit ((getLogger c).log .warn "Simulating 400 Bad Request" [])
  (c.json 400 (.detail "Bad Request"), s)

/-- GET /metrics, gin.WrapH(promhttp.Handler()): renders the current
metric state; read-only on the program state and emits no logs. -/
def metricsHandler : Stage := fun c s =>
  (c.json 200 .metricsExposition, s)

/-- The Gin default handler when no route matched: plain-text 404. -/
def noRouteStage : Stage := fun c s =>
  ({ c with status := 404, body := .plain "404 page not found" }, s)

/-! ## Middleware pipeline (src/main.go lines 153-221) -/

/-- otelgin.Middleware("the-app"), modelled from its documented behavior:
start a span before calling the next stage (placing its context in the
request context) and finalize/export it afterwards.  The argument is the
span-identifier pair of the span the tracer produced; `none` models the
noop tracer installed when initTracer failed, whose span context is
invalid and which exports nothing.  Finalization (the deferred span end)
runs after the inner stages in every case. -/
def otelginMiddleware (sp : Option SpanIds) (next : Stage) : Stage := fun c s =>
  let s := s.emitEvent .spanStarted
  let (c, s) := next { c with span := sp } s
  let s :=
    match sp with
    | some ids => { s with exportedSpans := s.exportedSpans ++ [ids] }
    | none => s
  (c, s.emitEvent .spanEnded)

/-- structuredLogMiddleware (src/main.go lines 153-173): derive the
request logger, adding trace_id and span_id when the active span context
is valid, store it under the "logger" key, and call the next stage. -/
def structuredLogMiddleware (logger : Logger) (next : Stage) : Stage := fun c s =>
  let requestLogger :=
    match c.span with
    | some ids =>
        logger.withFields [("trace_id", ids.traceID), ("span_id", ids.spanID)]
    | none => logger
  let s := s.emitEvent .loggerBound
  next { c with keyLogger := some requestLogger } s

/-- prometheusMiddleware (src/main.go lines 176-192): start the timer,
call the next stage, then record one duration observation labeled by
method and route and one request-counter increment labeled by method,
route and final status.  An empty FullPath (no route matched) is replaced
by the sentinel label "none". -/
def prometheusMiddleware (next : Stage) : Stage := fun c s =>
  let s := s.emitEvent .timerStarted
  let (c, s) := next c s
  let path := if c.fullPath = "" then "none" else c.fullPath
  let s := { s with metrics :=
      { s.metrics with
          httpRequestDuration := s.metrics.httpRequestDuration ++ [(c.method, path)],
          httpRequestsTotal :=
            s.metrics.httpRequestsTotal ++ [(c.method, path, toString c.status)] } }
  (c, s.emitEvent .metricsRecorded)

/-! ## Routing (src/main.go lines 224-233) -/

/-- Remove a literal leading segment from a character list, or fail. -/
def dropLit : List Char → List Char → Option (List Char)
  | [], cs => some cs
  | _, [] => none
  | p :: ps, c :: cs => if c = p then dropLit ps cs else none

/-- The single path parameter of the /items/:item_id route: the part of
the path after the /items/ prefix, when it is one nonempty segment. -/
def itemIdSeg (path : String) : Option String :=
  match dropLit ("/items/".toList) path.toList with
  | some rest =>
      if rest ≠ [] && rest.all (fun c => c ≠ '/') then some (String.mk rest)
      else none
  | none => none

/-- The route table registered on the Gin router: match a method and path
to the route template and extracted path parameters. -/
def matchRoute (method path : String) : Option (String × List (String × String)) :=
  if method = "GET" ∧ path = "/" then some ("/", [])
  else if method = "GET" ∧ path = "/metrics" then some ("/metrics", [])
  else if method = "GET" ∧ path = "/status" then some ("/status", [])
  else if method = "GET" ∧ path = "/error-500" then some ("/error-500", [])
  else if method = "GET" ∧ path = "/error-400" then some ("/error-400", [])
  else if method = "GET" ∧ path = "/search/" then some ("/search/", [])
  else if method = "POST" ∧ path = "/items/" then some ("/items/", [])
  else
    match itemIdSeg path with
    | some seg =>
        if method = "GET" then some ("/items/:item_id", [("item_id", seg)])
        else none
    | none => none

/-- The registered handler for each route template. -/
def routeHandler (tmpl : String) : Stage :=
  if tmpl = "/" then readRoot
  else if tmpl = "/metrics" then metricsHandler
  else if tmpl = "/status" then getStatus
  else if tmpl = "/error-500" then getError500
  else if tmpl = "/error-400" then getError400
  else if tmpl = "/search/" then searchItems
  else if tmpl = "/items/" then createItem
  else if tmpl = "/items/:item_id" then readItem
  else noRouteStage

/-- The business stage of the chain: marks the handler invocation in the
ghost trace and runs the matched handler. -/
def businessStage (tmpl : String) : Stage := fun c s =>
  routeHandler tmpl c (s.emitEvent .handlerRun)

/-- An inbound HTTP request as seen by the model. -/
structure Request where
  method : String
  path : String
  query : List (String × String)
  rawBody : Option JsonBody
deriving DecidableEq, Repr

/-- The fresh gin.Context for a request: response status defaults to 200
until a handler writes; FullPath is the matched template or empty. -/
def initCtx (r : Request) (tmpl : String) (ps : List (String × String)) : Ctx :=
  { method := r.method, path := r.path, fullPath := tmpl, params := ps,
    query := r.query, rawBody := r.rawBody, span := none, keyLogger := none,
    status := 200, body := .empty }

/-- The middleware chain in registration order (src/main.go lines
215-221): otelgin, then structured logging, then Prometheus, around a
final stage. -/
def pipeline (logger : Logger) (sp : Option SpanIds) (last : Stage) : Stage :=
  otelginMiddleware sp (structuredLogMiddleware logger (prometheusMiddleware last))

/-- Process one request end to end.  When a route matches, the chain ends
in the matched handler; otherwise Gin still runs the global middleware
chain around its default 404 handler (FullPath stays empty). -/
def handleRequest (logger : Logger) (sp : Option SpanIds) (r : Request)
    (s : AppState) : Ctx × AppState :=
  match matchRoute r.method r.path with
  | some (tmpl, ps) => pipeline logger sp (businessStage tmpl) (initCtx r tmpl ps) s
  | none => pipeline logger sp noRouteStage (initCtx r "" []) s

/-- The application as wired in main: the base logger has no pre-bound
attributes. -/
def appHandle (sp : Option SpanIds) (r : Request) (s : AppState) : Ctx × AppState :=
  handleRequest baseLogger sp r s

/-- The route label under which prometheusMiddleware files a request. -/
def routeLabel (r : Request) : String :=
  match matchRoute r.method r.path with
  | some (tmpl, _) => tmpl
  | none => "none"

/-! ## Startup (src/unnamed/part_002 lines 142-163 and 201-220) -/

/-- Outcome of process startup. -/
inductive StartupResult
  | exited (code : Nat)
  | running (tracing : Bool) (logs : List LogRecord)
deriving DecidableEq, Repr

/-- main of src/unnamed/part_002: build the file-backed logger first
(exiting with code 1 if that fails), then initialize the tracer; a tracer
failure is logged once on the logger and the service keeps running with
tracing disabled.  The two arguments are the outcomes of newSlogLogger
and initTracer, each carrying its error text on failure. -/
def startup (loggerInit : Except String Logger)
    (tracerInit : Except String Unit) : StartupResult :=
  match loggerInit with
  | .error _ => .exited 1
  | .ok logger =>
      match tracerInit with
      | .error e =>
          .running false [logger.log .error "Failed to initialize tracer" [("error", e)]]
      | .ok _ =>
          .running true [logger.log .info "Tracer initialized successfully" []]

/-! ## Pipeline unfolding and handler frame lemmas -/

/-- Closed form of one pipeline pass: the context handed to the final
stage carries the span and the bound request logger; the surrounding
middlewares append their ghost events, the Prometheus labels, and the
exported span around the final stage. -/
theorem pipeline_eq (logger : Logger) (sp : Option SpanIds) (last : Stage)
    (c : Ctx) (s : AppState) :
    pipeline logger sp last c s =
      (let requestLogger :=
        match sp with
        | some ids =>
            logger.withFields [("trace_id", ids.traceID), ("span_id", ids.spanID)]
        | none => logger
       let c₁ : Ctx := { c with span := sp, keyLogger := some requestLogger }
       let s₁ := ((s.emitEvent .spanStarted).emitEvent .loggerBound).emitEvent .timerStarted
       let out := last c₁ s₁
       let path := if out.1.fullPath = "" then "none" else out.1.fullPath
       let s₂ := { out.2 with metrics :=
          { out.2.metrics with
              httpRequestDuration :=
                out.2.metrics.httpRequestDuration ++ [(out.1.method, path)],
              httpRequestsTotal :=
                out.2.metrics.httpRequestsTotal ++
                  [(out.1.method, path, toString out.1.status)] } }
       let s₃ := s₂.emitEvent .metricsRecorded
       let s₄ :=
        match sp with
        | some ids => { s₃ with exportedSpans := s₃.exportedSpans ++ [ids] }
        | none => s₃
       (out.1, s₄.emitEvent .spanEnded)) := rfl

/-- Frame of a business handler: it never touches the request method, the
matched route, the generic HTTP metric series, the ghost event trace or
the item store. -/
def HandlerFrame (h : Stage) : Prop :=
  ∀ c s,
    (h c s).1.method = c.method ∧
    (h c s).1.fullPath = c.fullPath ∧
    (h c s).2.metrics.httpRequestDuration = s.metrics.httpRequestDuration ∧
    (h c s).2.metrics.httpRequestsTotal = s.metrics.httpRequestsTotal ∧
    (h c s).2.events = s.events ∧
    (h c s).2.store = s.store

theorem readRoot_frame : HandlerFrame readRoot := by
  intro c s
  exact ⟨rfl, rfl, rfl, rfl, rfl, rfl⟩

theorem readItem_frame : HandlerFrame readItem := by
  intro c s
  unfold readItem
  dsimp only
  cases atoi ((List.lookup "item_id" c.params).getD "") with
  | none => exact ⟨rfl, rfl, rfl, rfl, rfl, rfl⟩
  | some itemID =>
      dsimp only
      cases List.lookup itemID s.store.fakeItemsDB with
      | none => exact ⟨rfl, rfl, rfl, rfl, rfl, rfl⟩
      | some item => exact ⟨rfl, rfl, rfl, rfl, rfl, rfl⟩

theorem searchItems_frame : HandlerFrame searchItems := by
  intro c s
  unfold searchItems
  dsimp only
  cases parseFloat ((List.lookup "min_price" c.query).getD "0") with
  | none => exact ⟨rfl, rfl, rfl, rfl, rfl, rfl⟩
  | some v => exact ⟨rfl, rfl, rfl, rfl, rfl, rfl⟩

theorem createItem_frame : HandlerFrame createItem := by
  intro c s
  unfold createItem
  dsimp only
  cases shouldBindJSON c.rawBody with
  | none => exact ⟨rfl, rfl, rfl, rfl, rfl, rfl⟩
  | some item => exact ⟨rfl, rfl, rfl, rfl, rfl, rfl⟩

theorem getStatus_frame : HandlerFrame getStatus := by
  intro c s
  exact ⟨rfl, rfl, rfl, rfl, rfl, rfl⟩

theorem getError500_frame : HandlerFrame getError500 := by
  intro c s
  exact ⟨rfl, rfl, rfl, rfl, rfl, rfl⟩

theorem getError400_frame : HandlerFrame getError400 := by
  intro c s
  exact ⟨rfl, rfl, rfl, rfl, rfl, rfl⟩

theorem metricsHandler_frame : HandlerFrame metricsHandler := by
  intro c s
  exact ⟨rfl, rfl, rfl, rfl, rfl, rfl⟩

theorem noRouteStage_frame : HandlerFrame noRouteStage := by
  intro c s
  exact ⟨rfl, rfl, rfl, rfl, rfl, rfl⟩

theorem routeHandler_frame (tmpl : String) : HandlerFrame (routeHandler tmpl) := by
  unfold routeHandler
  split
  · exact readRoot_frame
  · split
    · exact metricsHandler_frame
    · split
      · exact getStatus_frame
      · split
        · exact getError500_frame
        · split
          · exact getError400_frame
          · split
            · exact searchItems_frame
            · split
              · exact createItem_frame
              · split
                · exact readItem_frame
                · exact noRouteStage_frame

/-- The Prometheus middleware wraps any final stage that leaves the
generic HTTP series, the method and the matched route alone: the pass
appends exactly one duration observation and one counter increment, with
the empty-route sentinel label "none". -/
theorem pipeline_metrics (logger : Logger) (sp : Option SpanIds) (last : Stage)
    (hm : ∀ c s, (last c s).1.method = c.method)
    (hf : ∀ c s, (last c s).1.fullPath = c.fullPath)
    (hd : ∀ c s, (last c s).2.metrics.httpRequestDuration = s.metrics.httpRequestDuration)
    (ht : ∀ c s, (last c s).2.metrics.httpRequestsTotal = s.metrics.httpRequestsTotal)
    (c : Ctx) (s : AppState) :
    (pipeline logger sp last c s).2.metrics.httpRequestDuration
      = s.metrics.httpRequestDuration ++
        [(c.method, if c.fullPath = "" then "none" else c.fullPath)] ∧
    (pipeline logger sp last c s).2.metrics.httpRequestsTotal
      = s.metrics.httpRequestsTotal ++
        [(c.method, (if c.fullPath = "" then "none" else c.fullPath),
          toString (pipeline logger sp last c s).1.status)] := by
  cases sp with
  | none =>
      rw [pipeline_eq]
      dsimp only
      refine ⟨?_, ?_⟩
      · rw [hd, hm, hf]; rfl
      · rw [ht, hm, hf]; rfl
  | some ids =>
      rw [pipeline_eq]
      dsimp only
      refine ⟨?_, ?_⟩
      · rw [hd, hm, hf]; rfl
      · rw [ht, hm, hf]; rfl

/-- Every template the route table returns is a nonempty string. -/
theorem matchRoute_ne_empty {method path tmpl : String}
    {ps : List (String × String)}
    (h : matchRoute method path = some (tmpl, ps)) : tmpl ≠ "" := by
  unfold matchRoute at h
  repeat' split at h
  all_goals
    first
    | (simp only [Option.some.injEq, Prod.mk.injEq] at h
       obtain ⟨h1, h2⟩ := h
       subst h1
       decide)
    | simp_all

/-! ## Claims -/

/-- A request whose path matches no registered route. -/
def reqUnmatched : Request := ⟨"GET", "/nope", [], none⟩

/-- C1 counterexample: for the unmatched request GET /nope the middleware
labels the duration observation and the counter increment with the
sentinel "none", not with the sentinel "unmatched" stated by the claim. -/
theorem C1_unmatched_sentinel_cex :
    (appHandle none reqUnmatched initialState).2.metrics.httpRequestDuration
      = [("GET", "none")] ∧
    (appHandle none reqUnmatched initialState).2.metrics.httpRequestDuration
      ≠ [("GET", "unmatched")] ∧
    (appHandle none reqUnmatched initialState).2.metrics.httpRequestsTotal
      = [("GET", "none", "404")] ∧
    (appHandle none reqUnmatched initialState).2.metrics.httpRequestsTotal
      ≠ [("GET", "unmatched", "404")] := by
  refine ⟨by decide, by decide, by decide, by decide⟩

/-- C1 (amended): for every completed request the metrics middleware
records exactly one observation into the duration histogram, labeled by
method and matched route template, and exactly one increment into the
request counter, labeled by method, route and final status; when no route
matched the route label is the sentinel "none" (the code's literal),
not "unmatched". -/
theorem C1_prometheus_records_once (sp : Option SpanIds) (r : Request) (s : AppState) :
    (appHandle sp r s).2.metrics.httpRequestDuration
      = s.metrics.httpRequestDuration ++ [(r.method, routeLabel r)] ∧
    (appHandle sp r s).2.metrics.httpRequestsTotal
      = s.metrics.httpRequestsTotal ++
        [(r.method, routeLabel r, toString (appHandle sp r s).1.status)] := by
  unfold appHandle handleRequest routeLabel
  cases hm : matchRoute r.method r.path with
  | none =>
      dsimp only
      have h := pipeline_metrics baseLogger sp noRouteStage
        (fun c s => (noRouteStage_frame c s).1)
        (fun c s => (noRouteStage_frame c s).2.1)
        (fun c s => (noRouteStage_frame c s).2.2.1)
        (fun c s => (noRouteStage_frame c s).2.2.2.1)
        (initCtx r "" []) s
      simpa [initCtx] using h
  | some tp =>
      obtain ⟨tmpl, ps⟩ := tp
      dsimp only
      have hne := matchRoute_ne_empty hm
      have hfr := routeHandler_frame tmpl
      have h := pipeline_metrics baseLogger sp (businessStage tmpl)
        (fun c s => (hfr c (s.emitEvent .handlerRun)).1)
        (fun c s => (hfr c (s.emitEvent .handlerRun)).2.1)
        (fun c s => (hfr c (s.emitEvent .handlerRun)).2.2.1)
        (fun c s => (hfr c (s.emitEvent .handlerRun)).2.2.2.1)
        (initCtx r tmpl ps) s
      simp only [initCtx] at h
      rw [if_neg hne] at h
      exact h

/-- The full middleware chain around a final stage that appends exactly
the handler-invocation event produces the fixed six-event trace. -/
theorem pipeline_events (logger : Logger) (sp : Option SpanIds) (last : Stage)
    (hl : ∀ c s, (last c s).2.events = s.events ++ [Event.handlerRun])
    (c : Ctx) (s : AppState) :
    (pipeline logger sp last c s).2.events
      = s.events ++ [.spanStarted, .loggerBound, .timerStarted, .handlerRun,
          .metricsRecorded, .spanEnded] := by
  cases sp with
  | none =>
      rw [pipeline_eq]
      dsimp only
      show ((last _ _).2.events ++ [Event.metricsRecorded]) ++ [Event.spanEnded] = _
      rw [hl]
      simp [AppState.emitEvent]
  | some ids =>
      rw [pipeline_eq]
      dsimp only
      show ((last _ _).2.events ++ [Event.metricsRecorded]) ++ [Event.spanEnded] = _
      rw [hl]
      simp [AppState.emitEvent]

/-- C3: for every request the router matches, the pipeline emits exactly
one pass of its stages in the fixed order: span start, logger binding,
timer start, handler invocation, metric recording, span finalization —
each exactly once, with the two post-processing steps after the handler
(and hence also for non-2xx responses, which take the same path). -/
theorem C3_pipeline_order (sp : Option SpanIds) (r : Request) (s : AppState)
    (tmpl : String) (ps : List (String × String))
    (hm : matchRoute r.method r.path = some (tmpl, ps)) :
    (appHandle sp r s).2.events
      = s.events ++ [.spanStarted, .loggerBound, .timerStarted, .handlerRun,
          .metricsRecorded, .spanEnded] := by
  unfold appHandle handleRequest
  rw [hm]
  dsimp only
  exact pipeline_events baseLogger sp (businessStage tmpl)
    (fun c s => ((routeHandler_frame tmpl) c (s.emitEvent .handlerRun)).2.2.2.2.1)
    (initCtx r tmpl ps) s

/-- C3 witness: the trace of GET /error-500 (a 500 response) from the
startup state is exactly the six events in order. -/
theorem C3_pipeline_order_witness :
    (appHandle none ⟨"GET", "/error-500", [], none⟩ initialState).2.events
      = [.spanStarted, .loggerBound, .timerStarted, .handlerRun,
         .metricsRecorded, .spanEnded] := by
  have h := C3_pipeline_order none ⟨"GET", "/error-500", [], none⟩ initialState
    "/error-500" [] (by decide)
  simpa [initialState] using h

/-- C4: the logger accessor is a total function of the context: with a
logger bound under the "logger" key it returns exactly that logger, and
with nothing bound it falls back to the unenriched default logger — it
cannot panic or error on an unbound context. -/
theorem C4_getLogger_total (c : Ctx) :
    getLogger c = c.keyLogger.getD defaultLogger := by
  cases h : c.keyLogger <;> simp [getLogger, h]

/-! ## Store framing: responses depend on the store, never mutate it -/

/-- The response context a stage produces is a function of the request
context and the store alone. -/
def CtxFromStore (h : Stage) : Prop :=
  ∀ c s₁ s₂, s₁.store = s₂.store → (h c s₁).1 = (h c s₂).1

theorem readRoot_ctxFromStore : CtxFromStore readRoot :=
  fun _ _ _ _ => rfl

theorem readItem_ctxFromStore : CtxFromStore readItem := by
  intro c s₁ s₂ h
  unfold readItem
  dsimp only
  rw [h]
  cases atoi ((List.lookup "item_id" c.params).getD "") with
  | none => rfl
  | some itemID =>
      dsimp only
      cases List.lookup itemID s₂.store.fakeItemsDB with
      | none => rfl
      | some item => rfl

theorem searchItems_ctxFromStore : CtxFromStore searchItems := by
  intro c s₁ s₂ h
  unfold searchItems
  dsimp only
  cases parseFloat ((List.lookup "min_price" c.query).getD "0") with
  | none => simp [h, AppState.emit]
  | some v => simp [h, AppState.emit]

theorem createItem_ctxFromStore : CtxFromStore createItem := by
  intro c s₁ s₂ _
  unfold createItem
  dsimp only
  cases shouldBindJSON c.rawBody with
  | none => rfl
  | some item => rfl

theorem getStatus_ctxFromStore : CtxFromStore getStatus :=
  fun _ _ _ _ => rfl

theorem getError500_ctxFromStore : CtxFromStore getError500 :=
  fun _ _ _ _ => rfl

theorem getError400_ctxFromStore : CtxFromStore getError400 :=
  fun _ _ _ _ => rfl

theorem metricsHandler_ctxFromStore : CtxFromStore metricsHandler :=
  fun _ _ _ _ => rfl

theorem noRouteStage_ctxFromStore : CtxFromStore noRouteStage :=
  fun _ _ _ _ => rfl

theorem routeHandler_ctxFromStore (tmpl : String) :
    CtxFromStore (routeHandler tmpl) := by
  unfold routeHandler
  split
  · exact readRoot_ctxFromStore
  · split
    · exact metricsHandler_ctxFromStore
    · split
      · exact getStatus_ctxFromStore
      · split
        · exact getError500_ctxFromStore
        · split
          · exact getError400_ctxFromStore
          · split
            · exact searchItems_ctxFromStore
            · split
              · exact createItem_ctxFromStore
              · split
                · exact readItem_ctxFromStore
                · exact noRouteStage_ctxFromStore

/-- A pipeline pass around a store-preserving final stage preserves the
store. -/
theorem pipeline_store (logger : Logger) (sp : Option SpanIds) (last : Stage)
    (hs : ∀ c s, (last c s).2.store = s.store) (c : Ctx) (s : AppState) :
    (pipeline logger sp last c s).2.store = s.store := by
  cases sp with
  | none =>
      rw [pipeline_eq]
      dsimp only
      rw [hs]
      rfl
  | some ids =>
      rw [pipeline_eq]
      dsimp only
      rw [hs]
      rfl

/-- A pipeline pass around a stage whose response depends only on the
store gives equal responses from states with equal stores. -/
theorem pipeline_ctx_congr (logger : Logger) (sp : Option SpanIds) (last : Stage)
    (hc : CtxFromStore last) (c : Ctx) (s₁ s₂ : AppState)
    (h : s₁.store = s₂.store) :
    (pipeline logger sp last c s₁).1 = (pipeline logger sp last c s₂).1 := by
  cases sp with
  | none =>
      rw [pipeline_eq, pipeline_eq]
      dsimp only
      exact hc _ _ _ h
  | some ids =>
      rw [pipeline_eq, pipeline_eq]
      dsimp only
      exact hc _ _ _ h

/-- C10: no request — in particular no POST /items/ create request,
successful or not — ever changes the item store (fakeItemsDB and
allItems), and every response is a function of the request and the store
alone; hence a "created" item is never retrievable by a subsequent
GET /items/:item_id or GET /search/ request, whose answers after the POST
equal their answers before it. -/
theorem C10_create_leaves_store_unchanged :
    (∀ sp r s, (appHandle sp r s).2.store = s.store) ∧
    (∀ sp r s₁ s₂, s₁.store = s₂.store →
      (appHandle sp r s₁).1 = (appHandle sp r s₂).1) := by
  constructor
  · intro sp r s
    unfold appHandle handleRequest
    cases hm : matchRoute r.method r.path with
    | none =>
        exact pipeline_store baseLogger sp noRouteStage
          (fun c s => (noRouteStage_frame c s).2.2.2.2.2) (initCtx r "" []) s
    | some tp =>
        obtain ⟨tmpl, ps⟩ := tp
        dsimp only
        exact pipeline_store baseLogger sp (businessStage tmpl)
          (fun c s => ((routeHandler_frame tmpl) c (s.emitEvent .handlerRun)).2.2.2.2.2)
          (initCtx r tmpl ps) s
  · intro sp r s₁ s₂ h
    unfold appHandle handleRequest
    cases hm : matchRoute r.method r.path with
    | none =>
        exact pipeline_ctx_congr baseLogger sp noRouteStage
          noRouteStage_ctxFromStore (initCtx r "" []) s₁ s₂ h
    | some tp =>
        obtain ⟨tmpl, ps⟩ := tp
        dsimp only
        exact pipeline_ctx_congr baseLogger sp (businessStage tmpl)
          (fun c t₁ t₂ ht => (routeHandler_ctxFromStore tmpl) c
            (t₁.emitEvent .handlerRun) (t₂.emitEvent .handlerRun) ht)
          (initCtx r tmpl ps) s₁ s₂ h

/-- C10 witness: a successful POST /items/ create from the startup state
leaves the store equal to the startup store, and a subsequent
GET /items/4 for the "created" item answers exactly as it would have
before the POST. -/
theorem C10_create_leaves_store_unchanged_witness :
    (appHandle none ⟨"POST", "/items/", [],
        some ⟨some "tv", some 999, none⟩⟩ initialState).2.store
      = initialState.store ∧
    (appHandle none ⟨"GET", "/items/4", [], none⟩
        (appHandle none ⟨"POST", "/items/", [],
          some ⟨some "tv", some 999, none⟩⟩ initialState).2).1
      = (appHandle none ⟨"GET", "/items/4", [], none⟩ initialState).1 := by
  refine ⟨C10_create_leaves_store_unchanged.1 none _ initialState, ?_⟩
  exact C10_create_leaves_store_unchanged.2 none _ _ initialState
    (C10_create_leaves_store_unchanged.1 none _ initialState)

/-! ## Log correlation -/

/-- When a logger is bound in the context, the accessor returns it. -/
theorem getLogger_bound {c : Ctx} {lg : Logger} (hk : c.keyLogger = some lg) :
    getLogger c = lg := by
  unfold getLogger
  rw [hk]

/-- A stage only ever appends log lines, each emitted through the logger
bound in the context. -/
def LogsFromBound (h : Stage) : Prop :=
  ∀ c s lg, c.keyLogger = some lg →
    ∃ new, (h c s).2.logs = s.logs ++ new ∧
      ∀ rec ∈ new, ∃ lv m kv, rec = lg.log lv m kv

theorem singletonTagged (lg : Logger) (lv : Level) (m : String)
    (kv : List (String × String)) :
    ∀ rec ∈ [lg.log lv m kv], ∃ lv2 m2 kv2, rec = lg.log lv2 m2 kv2 := by
  intro rec hr
  rw [List.mem_singleton] at hr
  exact ⟨_, _, _, hr⟩

theorem pairTagged (lg : Logger) (lv₁ lv₂ : Level) (m₁ m₂ : String)
    (kv₁ kv₂ : List (String × String)) :
    ∀ rec ∈ [lg.log lv₁ m₁ kv₁, lg.log lv₂ m₂ kv₂],
      ∃ lv m kv, rec = lg.log lv m kv := by
  intro rec hr
  rcases List.mem_cons.mp hr with h | h
  · exact ⟨_, _, _, h⟩
  · rw [List.mem_singleton] at h
    exact ⟨_, _, _, h⟩

theorem readRoot_logsTagged : LogsFromBound readRoot := by
  intro c s lg hk
  unfold readRoot
  dsimp only
  rw [getLogger_bound hk]
  exact ⟨_, rfl, singletonTagged lg _ _ _⟩

theorem readItem_logsTagged : LogsFromBound readItem := by
  intro c s lg hk
  unfold readItem
  dsimp only
  rw [getLogger_bound hk]
  cases atoi ((List.lookup "item_id" c.params).getD "") with
  | none => exact ⟨_, rfl, singletonTagged lg _ _ _⟩
  | some itemID =>
      dsimp only
      cases List.lookup itemID s.store.fakeItemsDB with
      | none => exact ⟨_, rfl, singletonTagged lg _ _ _⟩
      | some item => exact ⟨_, rfl, singletonTagged lg _ _ _⟩

theorem append_two {α : Type} (l : List α) (a b : α) :
    (l ++ [a]) ++ [b] = l ++ [a, b] := by
  simp

theorem searchItems_logsTagged : LogsFromBound searchItems := by
  intro c s lg hk
  unfold searchItems
  dsimp only
  rw [getLogger_bound hk]
  cases parseFloat ((List.lookup "min_price" c.query).getD "0") with
  | none =>
      dsimp only
      exact ⟨_, append_two s.logs _ _, pairTagged lg _ _ _ _ _ _⟩
  | some v =>
      dsimp only
      exact ⟨_, rfl, singletonTagged lg _ _ _⟩

theorem createItem_logsTagged : LogsFromBound createItem := by
  intro c s lg hk
  unfold createItem
  dsimp only
  rw [getLogger_bound hk]
  cases shouldBindJSON c.rawBody with
  | none => exact ⟨_, rfl, singletonTagged lg _ _ _⟩
  | some item => exact ⟨_, rfl, singletonTagged lg _ _ _⟩

theorem getStatus_logsTagged : LogsFromBound getStatus := by
  intro c s lg hk
  unfold getStatus
  dsimp only
  rw [getLogger_bound hk]
  exact ⟨_, rfl, singletonTagged lg _ _ _⟩

theorem getError500_logsTagged : LogsFromBound getError500 := by
  intro c s lg hk
  unfold getError500
  dsimp only
  rw [getLogger_bound hk]
  exact ⟨_, rfl, singletonTagged lg _ _ _⟩

theorem getError400_logsTagged : LogsFromBound getError400 := by
  intro c s lg hk
  unfold getError400
  dsimp only
  rw [getLogger_bound hk]
  exact ⟨_, rfl, singletonTagged lg _ _ _⟩

theorem metricsHandler_logsTagged : LogsFromBound metricsHandler := by
  intro c s lg hk
  exact ⟨[], by simp [metricsHandler], by intro rec hr; cases hr⟩

theorem noRouteStage_logsTagged : LogsFromBound noRouteStage := by
  intro c s lg hk
  exact ⟨[], by simp [noRouteStage], by intro rec hr; cases hr⟩

theorem routeHandler_logsTagged (tmpl : String) :
    LogsFromBound (routeHandler tmpl) := by
  unfold routeHandler
  split
  · exact readRoot_logsTagged
  · split
    · exact metricsHandler_logsTagged
    · split
      · exact getStatus_logsTagged
      · split
        · exact getError500_logsTagged
        · split
          · exact getError400_logsTagged
          · split
            · exact searchItems_logsTagged
            · split
              · exact createItem_logsTagged
              · split
                · exact readItem_logsTagged
                · exact noRouteStage_logsTagged

/-- All log lines a pipeline pass with a valid span appends are emitted
through the request logger, i.e. the base logger enriched with the trace
and span identifiers of the active span. -/
theorem pipeline_logs_tagged (logger : Logger) (ids : SpanIds) (last : Stage)
    (hl : LogsFromBound last) (c : Ctx) (s : AppState) :
    ∃ new, (pipeline logger (some ids) last c s).2.logs = s.logs ++ new ∧
      ∀ rec ∈ new, ∃ lv m kv,
        rec = (logger.withFields
          [("trace_id", ids.traceID), ("span_id", ids.spanID)]).log lv m kv := by
  rw [pipeline_eq]
  dsimp only
  obtain ⟨new, heq, hmem⟩ :=
    hl { c with
          span := some ids
          keyLogger := some (logger.withFields
            [("trace_id", ids.traceID), ("span_id", ids.spanID)]) }
      (((s.emitEvent .spanStarted).emitEvent .loggerBound).emitEvent .timerStarted)
      (logger.withFields [("trace_id", ids.traceID), ("span_id", ids.spanID)]) rfl
  exact ⟨new, heq, hmem⟩

/-- C2: every log line emitted during the handling of a request with a
valid active span — all handler logging goes through the bound logger —
carries trace_id and span_id attributes equal to the identifiers of that
span. -/
theorem C2_log_correlation (ids : SpanIds) (r : Request) (s : AppState)
    (rec : LogRecord)
    (hrec : rec ∈ ((appHandle (some ids) r s).2.logs.drop s.logs.length)) :
    rec.attrs.lookup "trace_id" = some ids.traceID ∧
    rec.attrs.lookup "span_id" = some ids.spanID := by
  unfold appHandle handleRequest at hrec
  cases hm : matchRoute r.method r.path with
  | none =>
      rw [hm] at hrec
      dsimp only at hrec
      obtain ⟨new, heq, hmem⟩ := pipeline_logs_tagged baseLogger ids noRouteStage
        noRouteStage_logsTagged (initCtx r "" []) s
      rw [heq, List.drop_left] at hrec
      obtain ⟨lv, m, kv, rfl⟩ := hmem rec hrec
      constructor <;> simp [Logger.log, Logger.withFields, baseLogger, List.lookup]
  | some tp =>
      obtain ⟨tmpl, ps⟩ := tp
      rw [hm] at hrec
      dsimp only at hrec
      obtain ⟨new, heq, hmem⟩ := pipeline_logs_tagged baseLogger ids (businessStage tmpl)
        (fun c s lg hk => routeHandler_logsTagged tmpl c (s.emitEvent .handlerRun) lg hk)
        (initCtx r tmpl ps) s
      rw [heq, List.drop_left] at hrec
      obtain ⟨lv, m, kv, rfl⟩ := hmem rec hrec
      constructor <;> simp [Logger.log, Logger.withFields, baseLogger, List.lookup]

/-- C2 witness: the single log line of GET / under span identifiers
(t0, s0) carries exactly those identifiers. -/
theorem C2_log_correlation_witness :
    ((⟨Level.info, "Accessed root endpoint",
        [("trace_id", "t0"), ("span_id", "s0")]⟩ : LogRecord).attrs.lookup "trace_id"
      = some "t0") ∧
    ((⟨Level.info, "Accessed root endpoint",
        [("trace_id", "t0"), ("span_id", "s0")]⟩ : LogRecord).attrs.lookup "span_id"
      = some "s0") :=
  C2_log_correlation ⟨"t0", "s0"⟩ ⟨"GET", "/", [], none⟩ initialState
    ⟨Level.info, "Accessed root endpoint", [("trace_id", "t0"), ("span_id", "s0")]⟩
    (by decide)

/-! ## Scenario evaluations -/

theorem businessStage_item (c : Ctx) (s : AppState) :
    businessStage "/items/:item_id" c s = readItem c (s.emitEvent .handlerRun) := rfl

theorem businessStage_search (c : Ctx) (s : AppState) :
    businessStage "/search/" c s = searchItems c (s.emitEvent .handlerRun) := rfl

theorem businessStage_create (c : Ctx) (s : AppState) :
    businessStage "/items/" c s = createItem c (s.emitEvent .handlerRun) := rfl

/-- readItem on item_id 1 against the program store: 200 with the laptop
item, one read/success increment, one info log. -/
theorem readItem_eval_one (c : Ctx) (s : AppState)
    (hp : c.params = [("item_id", "1")]) (hs : s.store = appStore) :
    readItem c s
      = (c.json 200 (.itemBody 1 ⟨"laptop", 1200⟩),
         (s.emit ((getLogger c).log .info "Successfully retrieved item"
            [("item_id", toString (1 : Int))])).incItemOperations "read" "success") := by
  unfold readItem
  dsimp only
  rw [hp]
  rw [show atoi ((List.lookup "item_id" [("item_id", "1")]).getD "")
        = some (1 : Int) from by decide]
  dsimp only
  rw [hs]
  rw [show List.lookup (1 : Int) appStore.fakeItemsDB
        = some ⟨"laptop", 1200⟩ from by decide]

/-- C6: GET /items/1 returns 200, the body is the laptop item (so it
contains name=laptop), and item_operations_total gets exactly one
increment, labeled read/success. -/
theorem C6_scenario1 (sp : Option SpanIds) (s : AppState) (hs : s.store = appStore) :
    (appHandle sp ⟨"GET", "/items/1", [], none⟩ s).1.status = 200 ∧
    (appHandle sp ⟨"GET", "/items/1", [], none⟩ s).1.body
      = .itemBody 1 ⟨"laptop", 1200⟩ ∧
    (appHandle sp ⟨"GET", "/items/1", [], none⟩ s).2.metrics.itemOperationsTotal
      = s.metrics.itemOperationsTotal ++ [("read", "success")] := by
  have hm : matchRoute "GET" "/items/1"
      = some ("/items/:item_id", [("item_id", "1")]) := by decide
  cases sp with
  | none =>
      unfold appHandle handleRequest
      dsimp only
      rw [hm]
      dsimp only
      rw [pipeline_eq]
      dsimp only [initCtx]
      rw [businessStage_item, readItem_eval_one _
        ((((s.emitEvent .spanStarted).emitEvent .loggerBound).emitEvent
          .timerStarted).emitEvent .handlerRun) rfl hs]
      exact ⟨rfl, rfl, rfl⟩
  | some ids =>
      unfold appHandle handleRequest
      dsimp only
      rw [hm]
      dsimp only
      rw [pipeline_eq]
      dsimp only [initCtx]
      rw [businessStage_item, readItem_eval_one _
        ((((s.emitEvent .spanStarted).emitEvent .loggerBound).emitEvent
          .timerStarted).emitEvent .handlerRun) rfl hs]
      exact ⟨rfl, rfl, rfl⟩

/-- C6 witness: the scenario run from the startup state. -/
theorem C6_scenario1_witness :
    (appHandle none ⟨"GET", "/items/1", [], none⟩ initialState).1.status = 200 ∧
    (appHandle none ⟨"GET", "/items/1", [], none⟩ initialState).1.body
      = .itemBody 1 ⟨"laptop", 1200⟩ ∧
    (appHandle none ⟨"GET", "/items/1", [], none⟩ initialState).2.metrics.itemOperationsTotal
      = initialState.metrics.itemOperationsTotal ++ [("read", "success")] :=
  C6_scenario1 none initialState rfl

/-- searchItems on name=laptop, min_price=100 against the program store:
200 with exactly the laptop item, one search counter increment, one
observation of the value 1. -/
theorem searchItems_eval_laptop (c : Ctx) (s : AppState)
    (hq : c.query = [("name", "laptop"), ("min_price", "100")])
    (hs : s.store = appStore) :
    searchItems c s
      = (c.json 200 (.searchResults [⟨"laptop", 1200⟩]),
         ({ s with metrics :=
              { s.metrics with
                  searchRequestsTotal := s.metrics.searchRequestsTotal + 1,
                  searchResultsCount := s.metrics.searchResultsCount ++ [1] } }).emit
           ((getLogger c).log .info "Search performed"
             [("query_name", "laptop"), ("min_price", toString (100 : ℚ)),
              ("results_found", toString (1 : Nat))])) := by
  unfold searchItems
  dsimp only
  rw [hq]
  rw [show parseFloat ((List.lookup "min_price"
        [("name", "laptop"), ("min_price", "100")]).getD "0")
      = some (100 : ℚ) from by decide]
  dsimp only
  simp only [hs]
  rw [show List.filter (fun item => nameMatches
        ((List.lookup "name" [("name", "laptop"), ("min_price", "100")]).getD "")
        item.name && decide ((100 : ℚ) ≤ item.price)) appStore.allItems
      = [⟨"laptop", 1200⟩] from by decide]
  rfl

/-- C5: GET /search/?name=laptop&min_price=100 returns 200 with exactly
the laptop item (price 1200 is at least 100) in the results,
search_requests_total incremented by exactly one, and one observation of
the value 1 into search_results_count. -/
theorem C5_scenario3 (sp : Option SpanIds) (s : AppState) (hs : s.store = appStore) :
    (appHandle sp ⟨"GET", "/search/",
        [("name", "laptop"), ("min_price", "100")], none⟩ s).1.status = 200 ∧
    (appHandle sp ⟨"GET", "/search/",
        [("name", "laptop"), ("min_price", "100")], none⟩ s).1.body
      = .searchResults [⟨"laptop", 1200⟩] ∧
    (appHandle sp ⟨"GET", "/search/",
        [("name", "laptop"), ("min_price", "100")], none⟩ s).2.metrics.searchRequestsTotal
      = s.metrics.searchRequestsTotal + 1 ∧
    (appHandle sp ⟨"GET", "/search/",
        [("name", "laptop"), ("min_price", "100")], none⟩ s).2.metrics.searchResultsCount
      = s.metrics.searchResultsCount ++ [1] := by
  have hm : matchRoute "GET" "/search/" = some ("/search/", []) := by decide
  cases sp with
  | none =>
      unfold appHandle handleRequest
      dsimp only
      rw [hm]
      dsimp only
      rw [pipeline_eq]
      dsimp only [initCtx]
      rw [businessStage_search, searchItems_eval_laptop _
        ((((s.emitEvent .spanStarted).emitEvent .loggerBound).emitEvent
          .timerStarted).emitEvent .handlerRun) rfl hs]
      exact ⟨rfl, rfl, rfl, rfl⟩
  | some ids =>
      unfold appHandle handleRequest
      dsimp only
      rw [hm]
      dsimp only
      rw [pipeline_eq]
      dsimp only [initCtx]
      rw [businessStage_search, searchItems_eval_laptop _
        ((((s.emitEvent .spanStarted).emitEvent .loggerBound).emitEvent
          .timerStarted).emitEvent .handlerRun) rfl hs]
      exact ⟨rfl, rfl, rfl, rfl⟩

/-- C5 witness: the scenario run from the startup state. -/
theorem C5_scenario3_witness :
    (appHandle none ⟨"GET", "/search/",
        [("name", "laptop"), ("min_price", "100")], none⟩ initialState).1.status = 200 ∧
    (appHandle none ⟨"GET", "/search/",
        [("name", "laptop"), ("min_price", "100")], none⟩ initialState).1.body
      = .searchResults [⟨"laptop", 1200⟩] ∧
    (appHandle none ⟨"GET", "/search/",
        [("name", "laptop"), ("min_price", "100")],
        none⟩ initialState).2.metrics.searchRequestsTotal
      = initialState.metrics.searchRequestsTotal + 1 ∧
    (appHandle none ⟨"GET", "/search/",
        [("name", "laptop"), ("min_price", "100")],
        none⟩ initialState).2.metrics.searchResultsCount
      = initialState.metrics.searchResultsCount ++ [1] :=
  C5_scenario3 none initialState rfl

/-- createItem on a body whose price field is missing: 400 with one
create/bad_request increment and one warn log. -/
theorem createItem_eval_missing_price (c : Ctx) (s : AppState) (j : JsonBody)
    (hb : c.rawBody = some j) (hp : j.price = none) :
    createItem c s
      = (c.json 400 (.detail "binding error"),
         (s.emit ((getLogger c).log .warn "Failed to bind JSON for create item"
            [])).incItemOperations "create" "bad_request") := by
  unfold createItem
  dsimp only
  rw [hb]
  have hsb : shouldBindJSON (some j) = none := by
    obtain ⟨jn, jp, jo⟩ := j
    dsimp only at hp
    subst hp
    simp [shouldBindJSON]
  rw [hsb]

/-- C7: POST /items/ with a JSON body missing the price field returns
400 and increments item_operations_total create/bad_request by exactly
one. -/
theorem C7_scenario4 (sp : Option SpanIds) (s : AppState) (j : JsonBody)
    (hp : j.price = none) :
    (appHandle sp ⟨"POST", "/items/", [], some j⟩ s).1.status = 400 ∧
    (appHandle sp ⟨"POST", "/items/", [], some j⟩ s).2.metrics.itemOperationsTotal
      = s.metrics.itemOperationsTotal ++ [("create", "bad_request")] := by
  have hm : matchRoute "POST" "/items/" = some ("/items/", []) := by decide
  cases sp with
  | none =>
      unfold appHandle handleRequest
      dsimp only
      rw [hm]
      dsimp only
      rw [pipeline_eq]
      dsimp only [initCtx]
      rw [businessStage_create, createItem_eval_missing_price _
        ((((s.emitEvent .spanStarted).emitEvent .loggerBound).emitEvent
          .timerStarted).emitEvent .handlerRun) j rfl hp]
      exact ⟨rfl, rfl⟩
  | some ids =>
      unfold appHandle handleRequest
      dsimp only
      rw [hm]
      dsimp only
      rw [pipeline_eq]
      dsimp only [initCtx]
      rw [businessStage_create, createItem_eval_missing_price _
        ((((s.emitEvent .spanStarted).emitEvent .loggerBound).emitEvent
          .timerStarted).emitEvent .handlerRun) j rfl hp]
      exact ⟨rfl, rfl⟩

/-- C7 witness: a create request whose body has a name but no price,
from the startup state. -/
theorem C7_scenario4_witness :
    (appHandle none ⟨"POST", "/items/", [],
        some ⟨some "gadget", none, none⟩⟩ initialState).1.status = 400 ∧
    (appHandle none ⟨"POST", "/items/", [],
        some ⟨some "gadget", none, none⟩⟩ initialState).2.metrics.itemOperationsTotal
      = initialState.metrics.itemOperationsTotal ++ [("create", "bad_request")] :=
  C7_scenario4 none initialState ⟨some "gadget", none, none⟩ rfl

/-- Every price in the program store is nonnegative, so the min_price 0
filter is the name-only filter. -/
theorem filter_price_zero (name : String) :
    List.filter (fun item => nameMatches name item.name
        && decide ((0 : ℚ) ≤ item.price)) appStore.allItems
      = List.filter (fun item => nameMatches name item.name) appStore.allItems := by
  apply List.filter_congr
  intro it hit
  have h0 : decide ((0 : ℚ) ≤ it.price) = true := by
    fin_cases hit <;> decide
  rw [h0, Bool.and_true]

/-- searchItems on a min_price that fails to parse: warn once, treat
min_price as 0, return 200 with the name-only filtered results. -/
theorem searchItems_eval_invalid (c : Ctx) (s : AppState) (name mp : String)
    (hq : c.query = [("name", name), ("min_price", mp)])
    (hmp : parseFloat mp = none)
    (hs : s.store = appStore) :
    searchItems c s
      = (c.json 200 (.searchResults
           (List.filter (fun item => nameMatches name item.name) appStore.allItems)),
         ((({ s with metrics :=
              { s.metrics with
                  searchRequestsTotal := s.metrics.searchRequestsTotal + 1,
                  searchResultsCount := s.metrics.searchResultsCount ++
                    [(List.filter (fun item : DBItem => nameMatches name item.name)
                        appStore.allItems).length] } }).emit
           ((getLogger c).log .warn "Invalid min_price query param"
              [("min_price", mp)])).emit
           ((getLogger c).log .info "Search performed"
             [("query_name", name), ("min_price", toString (0 : ℚ)),
              ("results_found", toString (List.filter
                (fun item : DBItem => nameMatches name item.name)
                appStore.allItems).length)]))) := by
  unfold searchItems
  dsimp only
  rw [hq]
  rw [show (List.lookup "min_price" [("name", name), ("min_price", mp)]).getD "0"
      = mp from rfl]
  rw [hmp]
  dsimp only
  simp only [AppState.emit, hs]
  rw [show (List.lookup "name" [("name", name), ("min_price", mp)]).getD ""
      = name from rfl]
  rw [filter_price_zero]

/-- C9: a GET /search/ request whose min_price fails to parse is not
rejected: the handler warns once through the bound logger, treats
min_price as 0, and returns 200 with the results filtered only by the
name parameter. -/
theorem C9_invalid_min_price (sp : Option SpanIds) (s : AppState) (name mp : String)
    (hmp : parseFloat mp = none) (hs : s.store = appStore) :
    (appHandle sp ⟨"GET", "/search/",
        [("name", name), ("min_price", mp)], none⟩ s).1.status = 200 ∧
    (appHandle sp ⟨"GET", "/search/",
        [("name", name), ("min_price", mp)], none⟩ s).1.body
      = .searchResults
          (List.filter (fun item => nameMatches name item.name) appStore.allItems) ∧
    ∃ w info,
      (appHandle sp ⟨"GET", "/search/",
          [("name", name), ("min_price", mp)], none⟩ s).2.logs
        = s.logs ++ [w, info] ∧
      w.level = .warn ∧ w.msg = "Invalid min_price query param" := by
  have hm : matchRoute "GET" "/search/" = some ("/search/", []) := by decide
  cases sp with
  | none =>
      unfold appHandle handleRequest
      dsimp only
      rw [hm]
      dsimp only
      rw [pipeline_eq]
      dsimp only [initCtx]
      rw [businessStage_search, searchItems_eval_invalid _
        ((((s.emitEvent .spanStarted).emitEvent .loggerBound).emitEvent
          .timerStarted).emitEvent .handlerRun) name mp rfl hmp hs]
      refine ⟨rfl, rfl, _, _, append_two s.logs _ _, rfl, rfl⟩
  | some ids =>
      unfold appHandle handleRequest
      dsimp only
      rw [hm]
      dsimp only
      rw [pipeline_eq]
      dsimp only [initCtx]
      rw [businessStage_search, searchItems_eval_invalid _
        ((((s.emitEvent .spanStarted).emitEvent .loggerBound).emitEvent
          .timerStarted).emitEvent .handlerRun) name mp rfl hmp hs]
      refine ⟨rfl, rfl, _, _, append_two s.logs _ _, rfl, rfl⟩

/-- C9 witness: min_price=abc with name=laptop from the startup state. -/
theorem C9_invalid_min_price_witness :
    (appHandle none ⟨"GET", "/search/",
        [("name", "laptop"), ("min_price", "abc")], none⟩ initialState).1.status = 200 ∧
    (appHandle none ⟨"GET", "/search/",
        [("name", "laptop"), ("min_price", "abc")], none⟩ initialState).1.body
      = .searchResults
          (List.filter (fun item => nameMatches "laptop" item.name) appStore.allItems) ∧
    ∃ w info,
      (appHandle none ⟨"GET", "/search/",
          [("name", "laptop"), ("min_price", "abc")], none⟩ initialState).2.logs
        = initialState.logs ++ [w, info] ∧
      w.level = .warn ∧ w.msg = "Invalid min_price query param" :=
  C9_invalid_min_price none initialState "laptop" "abc" (by decide) rfl

/-- C8: in the part_002 main, a log-file initialization failure is fatal
(the process exits with code 1 instead of serving without its log sink),
while a tracer initialization failure is non-fatal: the failure is logged
exactly once on the base logger and the service runs with tracing
disabled. -/
theorem C8_startup_error_policy :
    (∀ e tracerInit, startup (.error e) tracerInit = .exited 1) ∧
    (∀ logger e, startup (.ok logger) (.error e)
      = .running false
          [logger.log .error "Failed to initialize tracer" [("error", e)]]) := by
  constructor
  · intro e tracerInit
    rfl
  · intro logger e
    rfl

end GoObs
